import Mathlib

/-!
Verification of the appointment Flask application against its specification.

This file gives a shallow embedding of the core of the repository:
  * utils/tokens.py        — the token codec (itsdangerous URLSafeTimedSerializer,
                             modelled symbolically with an ideal MAC),
  * models/reservation_model.py — the reservation store operations,
  * models/staff_user_model.py  — staff lookup and password verification,
  * views/staff_routes.py  — the staff reservation-detail POST handler and login,
  * views/public_routes.py — the public reschedule handler,
and proves the specified properties about those definitions.

Python string helpers (str.strip, str.lower, int()) are modelled by executable
functions over the character list so that all definitions reduce in the kernel.
-/

namespace Appointment

/-! ### Python string primitives -/

/-- Model of the whitespace test used by Python str.strip. -/
def dropLeadingSpaces : List Char → List Char
  | [] => []
  | c :: cs => if c.isWhitespace then dropLeadingSpaces cs else c :: cs

/-- Model of Python str.strip(): remove leading and trailing whitespace. -/
def pyStrip (s : String) : String :=
  ⟨((dropLeadingSpaces s.data).reverse |> dropLeadingSpaces).reverse⟩

/-- Model of Python str.lower(). -/
def pyLower (s : String) : String :=
  ⟨s.data.map Char.toLower⟩

/-- Accumulate a decimal value from a character list; none on a non-digit or
on an empty digit sequence. Helper for the model of Python int(). -/
def digitsVal : List Char → Option Nat → Option Nat
  | [], acc => acc
  | c :: cs, acc =>
      if c.isDigit then
        digitsVal cs (some ((acc.getD 0) * 10 + (c.toNat - Char.toNat (Char.ofNat 48))))
      else none

/-- Model of Python int(str): optional sign, decimal digits, surrounding
whitespace allowed; ValueError is modelled as none. -/
def pyInt (s : String) : Option Int :=
  match (pyStrip s).data with
  | c :: rest =>
      if c = Char.ofNat 45 then (digitsVal rest none).map (fun n => -(n : Int))
      else if c = Char.ofNat 43 then (digitsVal rest none).map (fun n => (n : Int))
      else (digitsVal (c :: rest) none).map (fun n => (n : Int))
  | [] => none

/-! ### Token codec (utils/tokens.py)

issue_token serialises a payload with the current timestamp and signs it with
the application secret scoped by a salt; verify_token checks the signature,
then the age, then that the payload is a dict.  The itsdangerous MAC is
modelled as an ideal MAC: the signature is the abstract term
(secret, salt, data, timestamp), and signature verification is syntactic
equality of that term, which captures exactly "the signature matches this
secret, salt and signed body".
-/

/-- A primitive JSON value appearing in a token payload. -/
inductive Prim where
  | str : String → Prim
  | num : Int → Prim
deriving DecidableEq, Repr

/-- A flat mapping payload, as passed to issue_token. -/
abbrev Payload := List (String × Prim)

/-- What the serialised body of a token deserialises to: a dict, or some
other JSON shape (verify_token rejects the latter as invalid). -/
inductive JsonData where
  | dict : Payload → JsonData
  | nondict : JsonData
deriving DecidableEq, Repr

/-- The ideal MAC term: a signature is determined by (and only matches) the
secret, the salt, the signed data and the signed timestamp. -/
structure Mac where
  secret : String
  salt : String
  data : JsonData
  timestamp : Nat
deriving DecidableEq, Repr

/-- Compute the (ideal) MAC over a signed body. -/
def macSign (secret salt : String) (d : JsonData) (ts : Nat) : Mac :=
  ⟨secret, salt, d, ts⟩

/-- A token string as produced by URLSafeTimedSerializer.dumps: the signed
body (payload and timestamp) plus the signature over them.  A byte flip in
the token string alters exactly one of these three segments. -/
structure SignedToken where
  data : JsonData
  timestamp : Nat
  sig : Mac
deriving DecidableEq, Repr

/-- Salt used by utils/tokens.py when no salt is supplied. -/
def DEFAULT_SALT : String := "ci-appointment-magic-link"

/-- utils/tokens.py issue_token: serialise the payload with the current time
and sign it under the given salt. -/
def issue_token (secret : String) (payload : Payload) (salt : String)
    (now : Nat) : SignedToken :=
  ⟨JsonData.dict payload, now, macSign secret salt (JsonData.dict payload) now⟩

/-- utils/tokens.py verify_token: check the signature first (BadSignature →
invalid), then the age (SignatureExpired → expired; itsdangerous expires
strictly when now - timestamp > max_age), then that the payload is a dict. -/
def verify_token (secret : String) (token : SignedToken)
    (max_age_seconds : Nat) (salt : String) (now : Nat) :
    Option Payload × Option String :=
  if token.sig ≠ macSign secret salt token.data token.timestamp then
    (none, some "invalid")
  else if now - token.timestamp > max_age_seconds then
    (none, some "expired")
  else
    match token.data with
    | JsonData.dict p => (some p, none)
    | JsonData.nondict => (none, some "invalid")

/-- A token obtained from another by a byte flip in the signed string: exactly
one of the three segments (data, timestamp, signature) differs. -/
def tamperedFrom (t tFlip : SignedToken) : Prop :=
  (tFlip.data ≠ t.data ∧ tFlip.timestamp = t.timestamp ∧ tFlip.sig = t.sig) ∨
  (tFlip.data = t.data ∧ tFlip.timestamp ≠ t.timestamp ∧ tFlip.sig = t.sig) ∨
  (tFlip.data = t.data ∧ tFlip.timestamp = t.timestamp ∧ tFlip.sig ≠ t.sig)

/-! ### Theorems for claims C1–C3 -/

/-- C1. Token round-trip: verifying a token issued with payload P under the
same salt, before max_age has elapsed, returns exactly (P, none). -/
theorem token_round_trip (secret : String) (p : Payload) (salt : String)
    (ts now max_age : Nat) (h : now - ts ≤ max_age) :
    verify_token secret (issue_token secret p salt ts) max_age salt now =
      (some p, none) := by
  simp [verify_token, issue_token, macSign, Nat.not_lt_of_le h]

/-- Witness for token_round_trip at a concrete payload and time. -/
theorem token_round_trip_witness :
    verify_token "sec" (issue_token "sec"
        [("email", Prim.str "a@example.com")] DEFAULT_SALT 100)
        3600 DEFAULT_SALT 200 =
      (some [("email", Prim.str "a@example.com")], none) :=
  token_round_trip "sec" [("email", Prim.str "a@example.com")] DEFAULT_SALT
    100 200 3600 (by decide)

/-- C2. Failure classification: a token whose signed string was tampered with
(a byte flip altering one segment) verifies as invalid at any time and any
max_age, while a genuinely issued token whose age strictly exceeds max_age
(including max_age = 0) verifies as expired, never invalid. -/
theorem verify_token_failure_classification (secret : String) (p : Payload)
    (salt : String) (ts : Nat) (tFlip : SignedToken)
    (nowFlip maFlip nowExp maExp : Nat)
    (hflip : tamperedFrom (issue_token secret p salt ts) tFlip)
    (hexp : nowExp - ts > maExp) :
    verify_token secret tFlip maFlip salt nowFlip = (none, some "invalid") ∧
    verify_token secret (issue_token secret p salt ts) maExp salt nowExp =
      (none, some "expired") := by
  refine ⟨?_, ?_⟩
  · have hne : tFlip.sig ≠ macSign secret salt tFlip.data tFlip.timestamp := by
      intro hbad
      rcases hflip with ⟨hd, ht, hs⟩ | ⟨hd, ht, hs⟩ | ⟨hd, ht, hs⟩ <;>
        simp_all [issue_token, macSign, Mac.mk.injEq]
    simp [verify_token, hne]
  · simp [verify_token, issue_token, macSign, hexp]

/-- Witness for verify_token_failure_classification: a concrete flipped token
and a concrete expired verification. -/
theorem verify_token_failure_classification_witness :
    verify_token "sec"
        ⟨JsonData.dict [("email", Prim.str "b@example.com")], 100,
         macSign "sec" DEFAULT_SALT
           (JsonData.dict [("email", Prim.str "a@example.com")]) 100⟩
        3600 DEFAULT_SALT 150 = (none, some "invalid") ∧
    verify_token "sec"
        (issue_token "sec" [("email", Prim.str "a@example.com")]
          DEFAULT_SALT 100) 0 DEFAULT_SALT 101 =
      (none, some "expired") :=
  verify_token_failure_classification "sec"
    [("email", Prim.str "a@example.com")] DEFAULT_SALT 100
    ⟨JsonData.dict [("email", Prim.str "b@example.com")], 100,
     macSign "sec" DEFAULT_SALT
       (JsonData.dict [("email", Prim.str "a@example.com")]) 100⟩
    150 3600 101 0 (Or.inl (by decide)) (by decide)

/-- C3. Purpose scoping: a token issued under salt s1 verifies as invalid
under any different salt s2, for any max_age and any time. -/
theorem token_purpose_scoping (secret : String) (p : Payload)
    (s1 s2 : String) (ts now max_age : Nat) (h : s1 ≠ s2) :
    verify_token secret (issue_token secret p s1 ts) max_age s2 now =
      (none, some "invalid") := by
  have hne : (issue_token secret p s1 ts).sig ≠
      macSign secret s2 (issue_token secret p s1 ts).data
        (issue_token secret p s1 ts).timestamp := by
    simp [issue_token, macSign, Mac.mk.injEq]
    intro h1
    exact absurd h1 h
  simp [verify_token, hne]

/-- Witness for token_purpose_scoping at two concrete distinct salts. -/
theorem token_purpose_scoping_witness :
    verify_token "sec" (issue_token "sec"
        [("email", Prim.str "a@example.com")] DEFAULT_SALT 100)
        3600 "password-reset" 100 =
      (none, some "invalid") :=
  token_purpose_scoping "sec" [("email", Prim.str "a@example.com")]
    DEFAULT_SALT "password-reset" 100 100 3600 (by decide)

/-! ### Reservation store (models/reservation_model.py)

A reservation row carries all columns of the reservations table.  Nullable
TEXT columns are Option String; timestamps are Nat.  The store is the list
of rows; get_reservation_by_id returns the first row with the given id, and
the UPDATE statements map over all rows matching the id.
-/

/-- One row of the reservations table. -/
structure Reservation where
  id : Int
  email : String
  chart_number : Option String
  referring_hospital : Option String
  last_name : Option String
  first_name : Option String
  last_name_kana : Option String
  first_name_kana : Option String
  birth_date : Option String
  sex : Option String
  first_choice_date : Option String
  first_choice_time_slot : Option String
  second_choice_date : Option String
  second_choice_time_slot : Option String
  third_choice_date : Option String
  third_choice_time_slot : Option String
  status : String
  confirmed_datetime : Option String
  staff_note : Option String
  handled_by : Option String
  created_at : Nat
  updated_at : Nat
deriving DecidableEq, Repr

/-- The reservations table. -/
abbrev Store := List Reservation

/-- models/reservation_model.py get_reservation_by_id: SELECT * WHERE id = ?. -/
def get_reservation_by_id (db : Store) (rid : Int) : Option Reservation :=
  db.find? (fun r => r.id == rid)

/-- The per-row effect of the UPDATE statement in update_reservation_status:
rows with a different id are untouched. -/
def applyStatusUpdate (rid : Int) (status : String)
    (confirmed_datetime staff_note handled_by : Option String)
    (now : Nat) (r : Reservation) : Reservation :=
  if r.id == rid then
    { r with
      status := status
      confirmed_datetime := confirmed_datetime
      staff_note := staff_note
      handled_by := handled_by
      updated_at := now }
  else r

/-- models/reservation_model.py update_reservation_status: unconditional
UPDATE of status, confirmed_datetime, staff_note, handled_by and updated_at
on every row with the given id. -/
def update_reservation_status (db : Store) (rid : Int) (status : String)
    (confirmed_datetime staff_note handled_by : Option String)
    (now : Nat) : Store :=
  db.map (applyStatusUpdate rid status confirmed_datetime staff_note
    handled_by now)

/-- The per-row effect of the UPDATE statement in update_reservation_choices:
rows with a different id are untouched. -/
def applyChoicesUpdate (rid : Int)
    (first_choice_date first_choice_time_slot : String)
    (second_choice_date second_choice_time_slot : Option String)
    (third_choice_date third_choice_time_slot : Option String)
    (now : Nat) (r : Reservation) : Reservation :=
  if r.id == rid then
    { r with
      first_choice_date := some first_choice_date
      first_choice_time_slot := some first_choice_time_slot
      second_choice_date := second_choice_date
      second_choice_time_slot := second_choice_time_slot
      third_choice_date := third_choice_date
      third_choice_time_slot := third_choice_time_slot
      status := "pending"
      updated_at := now }
  else r

/-- models/reservation_model.py update_reservation_choices: UPDATE of the six
choice columns, status forced to pending, updated_at bumped, on every row
with the given id. -/
def update_reservation_choices (db : Store) (rid : Int)
    (first_choice_date first_choice_time_slot : String)
    (second_choice_date second_choice_time_slot : Option String)
    (third_choice_date third_choice_time_slot : Option String)
    (now : Nat) : Store :=
  db.map (applyChoicesUpdate rid first_choice_date first_choice_time_slot
    second_choice_date second_choice_time_slot third_choice_date
    third_choice_time_slot now)

/-! ### Staff reservation-detail POST handler (views/staff_routes.py) -/

/-- The POST form of the staff reservation-detail page; a missing field is
none (request.form.get defaults it to the empty string). -/
structure StaffForm where
  status : Option String
  confirmed_datetime : Option String
  staff_note : Option String
  handled_by : Option String
deriving DecidableEq, Repr

/-- An outbound mail dispatched by the staff handler: either the confirmation
mail (carrying the confirmed datetime in the body) or the reschedule mail
(carrying the link with the freshly issued token). -/
inductive Notification where
  | confirmation (recipient : String) (confirmed_datetime : String)
  | reschedule (recipient : String) (token : SignedToken)
deriving DecidableEq, Repr

/-- Which page the staff reservation-detail handler responds with. -/
inductive StaffResponse where
  | redirect_list
  | render_detail_error
  | render_detail
deriving DecidableEq, Repr

/-- Model of the `value or None` idiom applied to a (stripped) form string. -/
def strOrNone (s : String) : Option String :=
  if s = "" then none else some s

/-- views/staff_routes.py reservation_detail, POST branch: fetch the
reservation (redirect to the list when absent), read and strip the form
fields, reject an empty status with a re-rendered error page, otherwise
update the row, then send the confirmation mail exactly when the status
changed to confirmed with a non-empty datetime (re-fetching the row first),
and send the reschedule mail whenever the new status is need_reschedule,
with a token over the reservation's email and id under the default salt. -/
def reservation_detail_post (secret : String) (db : Store) (rid : Int)
    (form : StaffForm) (now : Nat) :
    Store × List Notification × StaffResponse :=
  match get_reservation_by_id db rid with
  | none => (db, [], StaffResponse.redirect_list)
  | some reservation =>
    let before_status := reservation.status
    let status := pyStrip (form.status.getD "")
    let confirmed_datetime := pyStrip (form.confirmed_datetime.getD "")
    let staff_note := pyStrip (form.staff_note.getD "")
    let handled_by := pyStrip (form.handled_by.getD "")
    if status = "" then
      (db, [], StaffResponse.render_detail_error)
    else
      let db1 := update_reservation_status db rid status
        (strOrNone confirmed_datetime) (strOrNone staff_note)
        (strOrNone handled_by) now
      let confirmationMails : List Notification :=
        if before_status ≠ "confirmed" ∧ status = "confirmed" ∧
            confirmed_datetime ≠ "" then
          match get_reservation_by_id db1 rid with
          | some updated =>
              [Notification.confirmation updated.email confirmed_datetime]
          | none => []
        else []
      let rescheduleMails : List Notification :=
        if status = "need_reschedule" then
          [Notification.reschedule reservation.email
            (issue_token secret
              [("email", Prim.str reservation.email),
               ("reservation_id", Prim.num rid)]
              DEFAULT_SALT now)]
        else []
      (db1, confirmationMails ++ rescheduleMails, StaffResponse.render_detail)

/-- Whether a notification is a confirmation mail. -/
def isConfirmation : Notification → Bool
  | Notification.confirmation _ _ => true
  | _ => false

/-- Whether a notification is a reschedule mail. -/
def isReschedule : Notification → Bool
  | Notification.reschedule _ _ => true
  | _ => false

/-- applyStatusUpdate preserves the row id. -/
theorem applyStatusUpdate_id (rid : Int) (status : String)
    (cdt sn hb : Option String) (now : Nat) (r : Reservation) :
    (applyStatusUpdate rid status cdt sn hb now r).id = r.id := by
  by_cases hid : (r.id == rid) = true <;> simp [applyStatusUpdate, hid]

/-- applyChoicesUpdate preserves the row id. -/
theorem applyChoicesUpdate_id (rid : Int) (fcd fcts : String)
    (scd scts tcd tcts : Option String) (now : Nat) (r : Reservation) :
    (applyChoicesUpdate rid fcd fcts scd scts tcd tcts now r).id = r.id := by
  by_cases hid : (r.id == rid) = true <;> simp [applyChoicesUpdate, hid]

/-- Fetching after update_reservation_status yields the fetched row with
exactly the four status fields and updated_at overwritten. -/
theorem get_after_update_status (db : Store) (rid : Int) (status : String)
    (cdt sn hb : Option String) (now : Nat) (r : Reservation)
    (h : get_reservation_by_id db rid = some r) :
    get_reservation_by_id
        (update_reservation_status db rid status cdt sn hb now) rid =
      some { r with
        status := status, confirmed_datetime := cdt, staff_note := sn,
        handled_by := hb, updated_at := now } := by
  have h2 : List.find? (fun x : Reservation => x.id == rid) db = some r := h
  have hr : (r.id == rid) = true := by
    have := List.find?_some h2
    simpa using this
  unfold get_reservation_by_id update_reservation_status
  rw [List.find?_map]
  have hcomp : ((fun x : Reservation => x.id == rid) ∘
      applyStatusUpdate rid status cdt sn hb now) =
      fun x : Reservation => x.id == rid := by
    funext x
    simp [Function.comp, applyStatusUpdate_id]
  rw [hcomp]
  rw [h2]
  simp [applyStatusUpdate, hr]

/-- Fetching after update_reservation_choices yields the fetched row with
exactly the six choice fields, status and updated_at overwritten. -/
theorem get_after_update_choices (db : Store) (rid : Int)
    (fcd fcts : String) (scd scts tcd tcts : Option String) (now : Nat)
    (r : Reservation) (h : get_reservation_by_id db rid = some r) :
    get_reservation_by_id
        (update_reservation_choices db rid fcd fcts scd scts tcd tcts now)
        rid =
      some { r with
        first_choice_date := some fcd, first_choice_time_slot := some fcts,
        second_choice_date := scd, second_choice_time_slot := scts,
        third_choice_date := tcd, third_choice_time_slot := tcts,
        status := "pending", updated_at := now } := by
  have h2 : List.find? (fun x : Reservation => x.id == rid) db = some r := h
  have hr : (r.id == rid) = true := by
    have := List.find?_some h2
    simpa using this
  unfold get_reservation_by_id update_reservation_choices
  rw [List.find?_map]
  have hcomp : ((fun x : Reservation => x.id == rid) ∘
      applyChoicesUpdate rid fcd fcts scd scts tcd tcts now) =
      fun x : Reservation => x.id == rid := by
    funext x
    simp [Function.comp, applyChoicesUpdate_id]
  rw [hcomp]
  rw [h2]
  simp [applyChoicesUpdate, hr]

/-- Normal form of the staff reservation-detail POST handler when the
reservation exists and the (stripped) status field is non-empty: the row is
updated, the page re-rendered, and the outbox holds the confirmation mail
exactly under the guard and the reschedule mail exactly when the new status
is need_reschedule. -/
theorem reservation_detail_post_eq (secret : String) (db : Store) (rid : Int)
    (form : StaffForm) (now : Nat) (r : Reservation)
    (h : get_reservation_by_id db rid = some r)
    (hst : pyStrip (form.status.getD "") ≠ "") :
    reservation_detail_post secret db rid form now =
      (update_reservation_status db rid (pyStrip (form.status.getD ""))
        (strOrNone (pyStrip (form.confirmed_datetime.getD "")))
        (strOrNone (pyStrip (form.staff_note.getD "")))
        (strOrNone (pyStrip (form.handled_by.getD ""))) now,
       (if r.status ≠ "confirmed" ∧
            pyStrip (form.status.getD "") = "confirmed" ∧
            pyStrip (form.confirmed_datetime.getD "") ≠ "" then
          [Notification.confirmation r.email
            (pyStrip (form.confirmed_datetime.getD ""))]
        else []) ++
       (if pyStrip (form.status.getD "") = "need_reschedule" then
          [Notification.reschedule r.email
            (issue_token secret
              [("email", Prim.str r.email),
               ("reservation_id", Prim.num rid)]
              DEFAULT_SALT now)]
        else []),
       StaffResponse.render_detail) := by
  have hup := get_after_update_status db rid (pyStrip (form.status.getD ""))
    (strOrNone (pyStrip (form.confirmed_datetime.getD "")))
    (strOrNone (pyStrip (form.staff_note.getD "")))
    (strOrNone (pyStrip (form.handled_by.getD ""))) now r h
  simp only [reservation_detail_post, h, hup, hst, if_false, if_neg,
    not_false_iff]

/-! ### Theorems for claims C4, C5, C10 (staff handler) -/

/-- C4. Confirmation-notification guard: a staff status update dispatches the
confirmation mail, addressed to the reservation's email and carrying the
submitted datetime, exactly when the prior status was not confirmed, the new
status is confirmed, and the submitted confirmed_datetime is non-empty; in
every other status update no confirmation mail is dispatched. -/
theorem confirmation_notification_guard (secret : String) (db : Store)
    (rid : Int) (form : StaffForm) (now : Nat) (r : Reservation)
    (h : get_reservation_by_id db rid = some r)
    (hst : pyStrip (form.status.getD "") ≠ "") :
    ((reservation_detail_post secret db rid form now).2.1).filter
        isConfirmation =
      (if r.status ≠ "confirmed" ∧
          pyStrip (form.status.getD "") = "confirmed" ∧
          pyStrip (form.confirmed_datetime.getD "") ≠ "" then
        [Notification.confirmation r.email
          (pyStrip (form.confirmed_datetime.getD ""))]
      else []) := by
  rw [reservation_detail_post_eq secret db rid form now r h hst]
  by_cases hg : r.status ≠ "confirmed" ∧
      pyStrip (form.status.getD "") = "confirmed" ∧
      pyStrip (form.confirmed_datetime.getD "") ≠ ""
  · have hnr : ¬ pyStrip (form.status.getD "") = "need_reschedule" := by
      rw [hg.2.1]; decide
    simp [hg, hnr, isConfirmation]
  · simp only [if_neg hg, List.nil_append]
    by_cases hr2 : pyStrip (form.status.getD "") = "need_reschedule" <;>
      simp [hr2, isConfirmation]

/-- Witness for confirmation_notification_guard: confirming a pending
reservation with a datetime dispatches exactly the one confirmation mail. -/
theorem confirmation_notification_guard_witness :
    ((reservation_detail_post "sec"
        [{ id := 1, email := "p@example.com", chart_number := none,
           referring_hospital := none, last_name := some "Yamada",
           first_name := some "Taro", last_name_kana := none,
           first_name_kana := none, birth_date := some "1980-01-01",
           sex := some "M", first_choice_date := some "2025-06-01",
           first_choice_time_slot := some "AM", second_choice_date := none,
           second_choice_time_slot := none, third_choice_date := none,
           third_choice_time_slot := none, status := "pending",
           confirmed_datetime := none, staff_note := none,
           handled_by := none, created_at := 0, updated_at := 0 }] 1
        { status := some "confirmed",
          confirmed_datetime := some "2025-06-01 10:00",
          staff_note := some "", handled_by := some "" } 5).2.1).filter
        isConfirmation =
      [Notification.confirmation "p@example.com" "2025-06-01 10:00"] := by
  have := confirmation_notification_guard "sec"
    [{ id := 1, email := "p@example.com", chart_number := none,
       referring_hospital := none, last_name := some "Yamada",
       first_name := some "Taro", last_name_kana := none,
       first_name_kana := none, birth_date := some "1980-01-01",
       sex := some "M", first_choice_date := some "2025-06-01",
       first_choice_time_slot := some "AM", second_choice_date := none,
       second_choice_time_slot := none, third_choice_date := none,
       third_choice_time_slot := none, status := "pending",
       confirmed_datetime := none, staff_note := none,
       handled_by := none, created_at := 0, updated_at := 0 }] 1
    { status := some "confirmed",
      confirmed_datetime := some "2025-06-01 10:00",
      staff_note := some "", handled_by := some "" } 5
    { id := 1, email := "p@example.com", chart_number := none,
      referring_hospital := none, last_name := some "Yamada",
      first_name := some "Taro", last_name_kana := none,
      first_name_kana := none, birth_date := some "1980-01-01",
      sex := some "M", first_choice_date := some "2025-06-01",
      first_choice_time_slot := some "AM", second_choice_date := none,
      second_choice_time_slot := none, third_choice_date := none,
      third_choice_time_slot := none, status := "pending",
      confirmed_datetime := none, staff_note := none,
      handled_by := none, created_at := 0, updated_at := 0 }
    (by decide) (by decide)
  rw [this]
  decide

/-- C5. Reschedule-notification rule: every staff status update to
need_reschedule, whatever the prior status, dispatches exactly one mail, to
the reservation's email, carrying a token freshly issued over exactly
{email, reservation_id} under the default salt. -/
theorem need_reschedule_notification (secret : String) (db : Store)
    (rid : Int) (form : StaffForm) (now : Nat) (r : Reservation)
    (h : get_reservation_by_id db rid = some r)
    (hst : pyStrip (form.status.getD "") = "need_reschedule") :
    (reservation_detail_post secret db rid form now).2.1 =
      [Notification.reschedule r.email
        (issue_token secret
          [("email", Prim.str r.email), ("reservation_id", Prim.num rid)]
          DEFAULT_SALT now)] ∧
    (issue_token secret
        [("email", Prim.str r.email), ("reservation_id", Prim.num rid)]
        DEFAULT_SALT now).data =
      JsonData.dict
        [("email", Prim.str r.email), ("reservation_id", Prim.num rid)] := by
  have hne : pyStrip (form.status.getD "") ≠ "" := by rw [hst]; decide
  rw [reservation_detail_post_eq secret db rid form now r h hne]
  have hnc : ¬ (r.status ≠ "confirmed" ∧
      pyStrip (form.status.getD "") = "confirmed" ∧
      pyStrip (form.confirmed_datetime.getD "") ≠ "") := by
    rintro ⟨-, hc, -⟩
    rw [hst] at hc
    exact absurd hc (by decide)
  simp [hnc, hst, issue_token]

/-- Witness for need_reschedule_notification on a concrete confirmed
reservation moved to need_reschedule. -/
theorem need_reschedule_notification_witness :
    (reservation_detail_post "sec"
        [{ id := 1, email := "p@example.com", chart_number := none,
           referring_hospital := none, last_name := some "Yamada",
           first_name := some "Taro", last_name_kana := none,
           first_name_kana := none, birth_date := some "1980-01-01",
           sex := some "M", first_choice_date := some "2025-06-01",
           first_choice_time_slot := some "AM", second_choice_date := none,
           second_choice_time_slot := none, third_choice_date := none,
           third_choice_time_slot := none, status := "confirmed",
           confirmed_datetime := some "2025-06-01 10:00",
           staff_note := none, handled_by := none, created_at := 0,
           updated_at := 1 }] 1
        { status := some "need_reschedule", confirmed_datetime := some "",
          staff_note := some "", handled_by := some "" } 5).2.1 =
      [Notification.reschedule "p@example.com"
        (issue_token "sec"
          [("email", Prim.str "p@example.com"),
           ("reservation_id", Prim.num 1)]
          DEFAULT_SALT 5)] ∧
    (issue_token "sec"
        [("email", Prim.str "p@example.com"),
         ("reservation_id", Prim.num 1)]
        DEFAULT_SALT 5).data =
      JsonData.dict
        [("email", Prim.str "p@example.com"),
         ("reservation_id", Prim.num 1)] :=
  need_reschedule_notification "sec"
    [{ id := 1, email := "p@example.com", chart_number := none,
       referring_hospital := none, last_name := some "Yamada",
       first_name := some "Taro", last_name_kana := none,
       first_name_kana := none, birth_date := some "1980-01-01",
       sex := some "M", first_choice_date := some "2025-06-01",
       first_choice_time_slot := some "AM", second_choice_date := none,
       second_choice_time_slot := none, third_choice_date := none,
       third_choice_time_slot := none, status := "confirmed",
       confirmed_datetime := some "2025-06-01 10:00", staff_note := none,
       handled_by := none, created_at := 0, updated_at := 1 }] 1
    { status := some "need_reschedule", confirmed_datetime := some "",
      staff_note := some "", handled_by := some "" } 5
    { id := 1, email := "p@example.com", chart_number := none,
      referring_hospital := none, last_name := some "Yamada",
      first_name := some "Taro", last_name_kana := none,
      first_name_kana := none, birth_date := some "1980-01-01",
      sex := some "M", first_choice_date := some "2025-06-01",
      first_choice_time_slot := some "AM", second_choice_date := none,
      second_choice_time_slot := none, third_choice_date := none,
      third_choice_time_slot := none, status := "confirmed",
      confirmed_datetime := some "2025-06-01 10:00", staff_note := none,
      handled_by := none, created_at := 0, updated_at := 1 }
    (by decide) (by decide)

/-- C10. A POST with an empty or missing status field leaves the store
untouched, dispatches no mail, and re-renders the detail page with an
error message. -/
theorem empty_status_no_effect (secret : String) (db : Store) (rid : Int)
    (form : StaffForm) (now : Nat) (r : Reservation)
    (h : get_reservation_by_id db rid = some r)
    (hst : form.status = none ∨ pyStrip (form.status.getD "") = "") :
    reservation_detail_post secret db rid form now =
      (db, [], StaffResponse.render_detail_error) := by
  have hst2 : pyStrip (form.status.getD "") = "" := by
    rcases hst with h1 | h1
    · rw [h1]; rfl
    · exact h1
  simp [reservation_detail_post, h, hst2]

/-- Witness for empty_status_no_effect: a whitespace-only status field. -/
theorem empty_status_no_effect_witness :
    reservation_detail_post "sec"
        [{ id := 1, email := "p@example.com", chart_number := none,
           referring_hospital := none, last_name := some "Yamada",
           first_name := some "Taro", last_name_kana := none,
           first_name_kana := none, birth_date := some "1980-01-01",
           sex := some "M", first_choice_date := some "2025-06-01",
           first_choice_time_slot := some "AM", second_choice_date := none,
           second_choice_time_slot := none, third_choice_date := none,
           third_choice_time_slot := none, status := "pending",
           confirmed_datetime := none, staff_note := none,
           handled_by := none, created_at := 0, updated_at := 0 }] 1
        { status := some "  ", confirmed_datetime := some "",
          staff_note := some "", handled_by := some "" } 5 =
      ([{ id := 1, email := "p@example.com", chart_number := none,
          referring_hospital := none, last_name := some "Yamada",
          first_name := some "Taro", last_name_kana := none,
          first_name_kana := none, birth_date := some "1980-01-01",
          sex := some "M", first_choice_date := some "2025-06-01",
          first_choice_time_slot := some "AM", second_choice_date := none,
          second_choice_time_slot := none, third_choice_date := none,
          third_choice_time_slot := none, status := "pending",
          confirmed_datetime := none, staff_note := none,
          handled_by := none, created_at := 0, updated_at := 0 }], [],
       StaffResponse.render_detail_error) :=
  empty_status_no_effect "sec"
    [{ id := 1, email := "p@example.com", chart_number := none,
       referring_hospital := none, last_name := some "Yamada",
       first_name := some "Taro", last_name_kana := none,
       first_name_kana := none, birth_date := some "1980-01-01",
       sex := some "M", first_choice_date := some "2025-06-01",
       first_choice_time_slot := some "AM", second_choice_date := none,
       second_choice_time_slot := none, third_choice_date := none,
       third_choice_time_slot := none, status := "pending",
       confirmed_datetime := none, staff_note := none,
       handled_by := none, created_at := 0, updated_at := 0 }] 1
    { status := some "  ", confirmed_datetime := some "",
      staff_note := some "", handled_by := some "" } 5
    { id := 1, email := "p@example.com", chart_number := none,
      referring_hospital := none, last_name := some "Yamada",
      first_name := some "Taro", last_name_kana := none,
      first_name_kana := none, birth_date := some "1980-01-01",
      sex := some "M", first_choice_date := some "2025-06-01",
      first_choice_time_slot := some "AM", second_choice_date := none,
      second_choice_time_slot := none, third_choice_date := none,
      third_choice_time_slot := none, status := "pending",
      confirmed_datetime := none, staff_note := none,
      handled_by := none, created_at := 0, updated_at := 0 }
    (by decide) (Or.inr (by decide))

/-! ### Theorems for claims C6 and C8 (store frame properties) -/

/-- A concrete confirmed reservation used in concrete instantiations. -/
def sampleConfirmed : Reservation :=
  { id := 1, email := "p@example.com", chart_number := none,
    referring_hospital := some "City Hospital", last_name := some "Yamada",
    first_name := some "Taro", last_name_kana := some "ヤマダ",
    first_name_kana := some "タロウ", birth_date := some "1980-01-01",
    sex := some "M", first_choice_date := some "2025-06-01",
    first_choice_time_slot := some "AM", second_choice_date := none,
    second_choice_time_slot := none, third_choice_date := none,
    third_choice_time_slot := none, status := "confirmed",
    confirmed_datetime := some "2025-06-01 10:00",
    staff_note := some "note", handled_by := some "staff1",
    created_at := 0, updated_at := 1 }

/-- C6. update_reservation_choices writes only the six choice fields, forces
status to pending and bumps updated_at on the target row — every other field
(email, demographics, confirmed_datetime, staff_note, handled_by,
created_at) is carried over unchanged — and rows with a different id are
untouched. -/
theorem update_choices_frame (db : Store) (rid : Int) (fcd fcts : String)
    (scd scts tcd tcts : Option String) (now : Nat) (r : Reservation)
    (h : get_reservation_by_id db rid = some r) :
    get_reservation_by_id
        (update_reservation_choices db rid fcd fcts scd scts tcd tcts now)
        rid =
      some { r with
        first_choice_date := some fcd, first_choice_time_slot := some fcts,
        second_choice_date := scd, second_choice_time_slot := scts,
        third_choice_date := tcd, third_choice_time_slot := tcts,
        status := "pending", updated_at := now } ∧
    (update_reservation_choices db rid fcd fcts scd scts tcd tcts now).filter
        (fun s => !(s.id == rid)) =
      db.filter (fun s => !(s.id == rid)) := by
  refine ⟨get_after_update_choices db rid fcd fcts scd scts tcd tcts now r h,
    ?_⟩
  unfold update_reservation_choices
  rw [show (db.map
      (applyChoicesUpdate rid fcd fcts scd scts tcd tcts now)).filter
      (fun s => !(s.id == rid)) =
    ((db.filter ((fun s : Reservation => !(s.id == rid)) ∘
      applyChoicesUpdate rid fcd fcts scd scts tcd tcts now)).map
      (applyChoicesUpdate rid fcd fcts scd scts tcd tcts now))
    from (List.filter_map _ db).symm ▸ rfl]
  have hpc : ((fun s : Reservation => !(s.id == rid)) ∘
      applyChoicesUpdate rid fcd fcts scd scts tcd tcts now) =
      fun s : Reservation => !(s.id == rid) := by
    funext x
    simp [Function.comp, applyChoicesUpdate_id]
  rw [hpc]
  have hmap : ∀ a ∈ db.filter (fun s : Reservation => !(s.id == rid)),
      applyChoicesUpdate rid fcd fcts scd scts tcd tcts now a = a := by
    intro a ha
    have := List.of_mem_filter ha
    simp only [Bool.not_eq_true'] at this
    simp [applyChoicesUpdate, this]
  simpa using List.map_congr_left hmap

/-- Witness for update_choices_frame: rescheduling the confirmed sample
reservation rewrites only the choices, resets status, and keeps email and
confirmed_datetime. -/
theorem update_choices_frame_witness :
    get_reservation_by_id
        (update_reservation_choices [sampleConfirmed] 1 "2025-07-01" "PM"
          none none none none 9) 1 =
      some { sampleConfirmed with
        first_choice_date := some "2025-07-01",
        first_choice_time_slot := some "PM",
        second_choice_date := none, second_choice_time_slot := none,
        third_choice_date := none, third_choice_time_slot := none,
        status := "pending", updated_at := 9 } ∧
    (update_reservation_choices [sampleConfirmed] 1 "2025-07-01" "PM"
        none none none none 9).filter (fun s => !(s.id == 1)) =
      [sampleConfirmed].filter (fun s => !(s.id == 1)) :=
  update_choices_frame [sampleConfirmed] 1 "2025-07-01" "PM"
    none none none none 9 sampleConfirmed (by decide)

/-- Counterexample to C8 as stated: the staff form moving the confirmed
sample reservation to need_reschedule with an empty confirmed_datetime
field clears the stored confirmed_datetime (it becomes NULL instead of
keeping its prior value). -/
theorem confirmed_datetime_cleared_counterexample :
    sampleConfirmed.confirmed_datetime = some "2025-06-01 10:00" ∧
    Option.map Reservation.confirmed_datetime
        (get_reservation_by_id
          (reservation_detail_post "sec" [sampleConfirmed] 1
            { status := some "need_reschedule",
              confirmed_datetime := some "", staff_note := some "",
              handled_by := some "" } 5).1 1) =
      some none := by
  refine ⟨rfl, ?_⟩
  decide

/-- C8 amended: confirmed_datetime survives the patient choice-update flow
(update_reservation_choices never touches it), but every staff status update
overwrites it with the submitted form value, so a later transition away from
confirmed keeps it only if the same value is resubmitted and clears it when
the field is left empty. -/
theorem confirmed_datetime_overwrite_semantics (secret : String)
    (db : Store) (rid : Int) (form : StaffForm) (now : Nat)
    (r : Reservation) (fcd fcts : String)
    (scd scts tcd tcts : Option String)
    (h : get_reservation_by_id db rid = some r)
    (hst : pyStrip (form.status.getD "") ≠ "") :
    Option.map Reservation.confirmed_datetime
        (get_reservation_by_id
          (reservation_detail_post secret db rid form now).1 rid) =
      some (strOrNone (pyStrip (form.confirmed_datetime.getD ""))) ∧
    Option.map Reservation.confirmed_datetime
        (get_reservation_by_id
          (update_reservation_choices db rid fcd fcts scd scts tcd tcts
            now) rid) =
      some r.confirmed_datetime := by
  refine ⟨?_, ?_⟩
  · rw [reservation_detail_post_eq secret db rid form now r h hst]
    rw [get_after_update_status db rid (pyStrip (form.status.getD ""))
      (strOrNone (pyStrip (form.confirmed_datetime.getD "")))
      (strOrNone (pyStrip (form.staff_note.getD "")))
      (strOrNone (pyStrip (form.handled_by.getD ""))) now r h]
    rfl
  · rw [get_after_update_choices db rid fcd fcts scd scts tcd tcts now r h]
    rfl

/-- Witness for confirmed_datetime_overwrite_semantics on the confirmed
sample reservation: a staff move to need_reschedule with an empty datetime
yields NULL, while a patient choice update keeps the stored datetime. -/
theorem confirmed_datetime_overwrite_semantics_witness :
    Option.map Reservation.confirmed_datetime
        (get_reservation_by_id
          (reservation_detail_post "sec" [sampleConfirmed] 1
            { status := some "need_reschedule",
              confirmed_datetime := some "", staff_note := some "",
              handled_by := some "" } 5).1 1) =
      some (strOrNone (pyStrip (("" : String)))) ∧
    Option.map Reservation.confirmed_datetime
        (get_reservation_by_id
          (update_reservation_choices [sampleConfirmed] 1 "2025-07-01" "PM"
            none none none none 5) 1) =
      some sampleConfirmed.confirmed_datetime :=
  confirmed_datetime_overwrite_semantics "sec" [sampleConfirmed] 1
    { status := some "need_reschedule", confirmed_datetime := some "",
      staff_note := some "", handled_by := some "" } 5 sampleConfirmed
    "2025-07-01" "PM" none none none none (by decide) (by decide)

/-! ### Public reschedule handler (views/public_routes.py) -/

/-- Python truthiness of a payload value (`not email_from_token`). -/
def primFalsy : Prim → Bool
  | Prim.str s => s == ""
  | Prim.num n => n == 0

/-- Python int() applied to a payload value; a non-numeric string raises
ValueError, modelled as none. -/
def pyIntOfPrim : Prim → Option Int
  | Prim.num n => some n
  | Prim.str s => pyInt s

/-- dict.get on a flat payload: first binding of the key, if any. -/
def payloadGet (p : Payload) (k : String) : Option Prim :=
  (p.find? (fun kv => kv.1 == k)).map (fun kv => kv.2)

/-- HTTP method of a request. -/
inductive Method where
  | get
  | post
deriving DecidableEq, Repr

/-- The choice fields of the reschedule POST form; a missing field is none
(request.form.get defaults it to the empty string). -/
structure RescheduleForm where
  first_choice_date : Option String
  first_choice_time_slot : Option String
  second_choice_date : Option String
  second_choice_time_slot : Option String
  third_choice_date : Option String
  third_choice_time_slot : Option String
deriving DecidableEq, Repr

/-- Which page the public reschedule handler responds with. -/
inductive PublicResponse where
  | token_invalid_page (reason : String)
  | redirect_email_input
  | render_reschedule_form
  | redirect_done
deriving DecidableEq, Repr

/-- views/public_routes.py reschedule: verify the token over 48 hours under
the default salt, extract and check email and reservation_id from the
payload, fetch the reservation, deny with the invalid-token page when the
token email differs from the stored email, and on a valid POST rewrite the
choice fields via update_reservation_choices. -/
def reschedule (secret : String) (db : Store) (token : SignedToken)
    (now : Nat) (method : Method) (form : RescheduleForm) :
    Store × PublicResponse :=
  match verify_token secret token (48 * 60 * 60) DEFAULT_SALT now with
  | (data?, err) =>
    if err = some "expired" then
      (db, PublicResponse.token_invalid_page "expired")
    else if err = some "invalid" ∨ data? = none then
      (db, PublicResponse.token_invalid_page "invalid")
    else
      match data? with
      | none => (db, PublicResponse.token_invalid_page "invalid")
      | some data =>
        match payloadGet data "email", payloadGet data "reservation_id" with
        | none, _ => (db, PublicResponse.token_invalid_page "invalid")
        | some email_from_token, rid? =>
          if primFalsy email_from_token ∨ rid? = none then
            (db, PublicResponse.token_invalid_page "invalid")
          else
            match rid? with
            | none => (db, PublicResponse.token_invalid_page "invalid")
            | some ridPrim =>
              match pyIntOfPrim ridPrim with
              | none => (db, PublicResponse.token_invalid_page "invalid")
              | some reservation_id =>
                match get_reservation_by_id db reservation_id with
                | none => (db, PublicResponse.redirect_email_input)
                | some reservation =>
                  if email_from_token ≠ Prim.str reservation.email then
                    (db, PublicResponse.token_invalid_page "invalid")
                  else
                    match method with
                    | Method.get => (db, PublicResponse.render_reschedule_form)
                    | Method.post =>
                      let fcd := pyStrip (form.first_choice_date.getD "")
                      let fcts :=
                        pyStrip (form.first_choice_time_slot.getD "")
                      let scd := pyStrip (form.second_choice_date.getD "")
                      let scts :=
                        pyStrip (form.second_choice_time_slot.getD "")
                      let tcd := pyStrip (form.third_choice_date.getD "")
                      let tcts :=
                        pyStrip (form.third_choice_time_slot.getD "")
                      if fcd = "" ∨ fcts = "" ∨
                          (scd ≠ "" ∧ scts = "") ∨ (scts ≠ "" ∧ scd = "") ∨
                          (tcd ≠ "" ∧ tcts = "") ∨ (tcts ≠ "" ∧ tcd = "")
                      then
                        (db, PublicResponse.render_reschedule_form)
                      else
                        (update_reservation_choices db reservation_id fcd
                          fcts (strOrNone scd) (strOrNone scts)
                          (strOrNone tcd) (strOrNone tcts) now,
                         PublicResponse.redirect_done)

/-- C7. Reschedule ownership check: a structurally valid, unexpired token
whose embedded email differs from the stored email of the reservation it
names is denied with the invalid-token page and no store update — the very
response every signature-invalid token receives. -/
theorem reschedule_ownership_check (secret : String) (db : Store)
    (p : Payload) (ts now : Nat) (method : Method) (form : RescheduleForm)
    (e : String) (ridPrim : Prim) (rid : Int) (r : Reservation)
    (tBad : SignedToken)
    (hage : now - ts ≤ 48 * 60 * 60)
    (hemail : payloadGet p "email" = some (Prim.str e))
    (hene : e ≠ "")
    (hrid : payloadGet p "reservation_id" = some ridPrim)
    (hridInt : pyIntOfPrim ridPrim = some rid)
    (hres : get_reservation_by_id db rid = some r)
    (hmismatch : r.email ≠ e)
    (hbad : verify_token secret tBad (48 * 60 * 60) DEFAULT_SALT now =
      (none, some "invalid")) :
    reschedule secret db (issue_token secret p DEFAULT_SALT ts) now method
        form =
      (db, PublicResponse.token_invalid_page "invalid") ∧
    reschedule secret db tBad now method form =
      (db, PublicResponse.token_invalid_page "invalid") := by
  constructor
  · have hver := token_round_trip secret p DEFAULT_SALT ts now
      (48 * 60 * 60) hage
    have hfalsy : primFalsy (Prim.str e) = false := by
      simp [primFalsy, hene]
    have hne2 : Prim.str e ≠ Prim.str r.email := by
      intro hcontra
      exact hmismatch (by injection hcontra with h1; exact h1.symm)
    simp [reschedule, hver, hemail, hrid, hfalsy, hridInt, hres, hne2]
  · simp [reschedule, hbad]

/-- Witness for reschedule_ownership_check: a token for a@example.com aimed
at the sample reservation of p@example.com, next to a token carrying a
signature over different data. -/
theorem reschedule_ownership_check_witness :
    reschedule "sec" [sampleConfirmed]
        (issue_token "sec"
          [("email", Prim.str "a@example.com"),
           ("reservation_id", Prim.num 1)] DEFAULT_SALT 100) 200
        Method.get
        { first_choice_date := none, first_choice_time_slot := none,
          second_choice_date := none, second_choice_time_slot := none,
          third_choice_date := none, third_choice_time_slot := none } =
      ([sampleConfirmed], PublicResponse.token_invalid_page "invalid") ∧
    reschedule "sec" [sampleConfirmed]
        ⟨JsonData.dict [("email", Prim.str "p@example.com"),
           ("reservation_id", Prim.num 1)], 100,
         macSign "sec" DEFAULT_SALT
           (JsonData.dict [("email", Prim.str "a@example.com"),
              ("reservation_id", Prim.num 1)]) 100⟩ 200
        Method.get
        { first_choice_date := none, first_choice_time_slot := none,
          second_choice_date := none, second_choice_time_slot := none,
          third_choice_date := none, third_choice_time_slot := none } =
      ([sampleConfirmed], PublicResponse.token_invalid_page "invalid") :=
  reschedule_ownership_check "sec" [sampleConfirmed]
    [("email", Prim.str "a@example.com"), ("reservation_id", Prim.num 1)]
    100 200 Method.get
    { first_choice_date := none, first_choice_time_slot := none,
      second_choice_date := none, second_choice_time_slot := none,
      third_choice_date := none, third_choice_time_slot := none }
    "a@example.com" (Prim.num 1) 1 sampleConfirmed
    ⟨JsonData.dict [("email", Prim.str "p@example.com"),
       ("reservation_id", Prim.num 1)], 100,
     macSign "sec" DEFAULT_SALT
       (JsonData.dict [("email", Prim.str "a@example.com"),
          ("reservation_id", Prim.num 1)]) 100⟩
    (by decide) (by decide) (by decide) (by decide) (by decide) (by decide)
    (by decide) (by decide)

/-! ### Staff authentication (models/staff_user_model.py, staff login) -/

/-- One row of the staff_users table. -/
structure StaffUserRow where
  id : Int
  email : String
  name : String
  password_hash : String
  isActive : Bool
deriving DecidableEq, Repr

/-- The StaffUser object handed to flask_login (no password hash). -/
structure StaffUser where
  id : Int
  email : String
  name : String
  isActive : Bool
deriving DecidableEq, Repr

/-- models/staff_user_model.py get_staff_user_by_email: SELECT by the
stripped, lowercased email. -/
def get_staff_user_by_email (users : List StaffUserRow) (email : String) :
    Option StaffUserRow :=
  users.find? (fun u => u.email == pyLower (pyStrip email))

/-- models/staff_user_model.py verify_staff_password: none when no row
matches, none when the row is inactive, none when the hash check fails,
otherwise the StaffUser.  The werkzeug check_password_hash collaborator is
a parameter. -/
def verify_staff_password (check_password_hash : String → String → Bool)
    (users : List StaffUserRow) (email password : String) :
    Option StaffUser :=
  match get_staff_user_by_email users email with
  | none => none
  | some row =>
    if !row.isActive then none
    else if check_password_hash row.password_hash password then
      some ⟨row.id, row.email, row.name, row.isActive⟩
    else none

/-- The flash message of the staff login failure branch. -/
def LOGIN_ERROR_MESSAGE : String :=
  "メールアドレスまたはパスワードが正しくありません。"

/-- What the staff login POST responds with: on failure, the one flash
message and the re-shown login form retaining the submitted email; on
success, the session login and redirect. -/
inductive LoginResponse where
  | render_login_error (flash : String) (email : String)
  | redirect_after_login (user : StaffUser)
deriving DecidableEq, Repr

/-- views/staff_routes.py login, POST branch for an unauthenticated visitor:
strip the email, verify, and either flash the single failure message and
re-render with the email retained, or log in and redirect. -/
def login_post (check_password_hash : String → String → Bool)
    (users : List StaffUserRow) (email password : String) : LoginResponse :=
  let email := pyStrip email
  match verify_staff_password check_password_hash users email password with
  | none => LoginResponse.render_login_error LOGIN_ERROR_MESSAGE email
  | some user => LoginResponse.redirect_after_login user

/-- Head of a character list is not whitespace (vacuously for []). -/
def headNotWs : List Char → Prop
  | [] => True
  | c :: _ => ¬ c.isWhitespace

/-- dropLeadingSpaces is idempotent. -/
theorem dropLeadingSpaces_idem (l : List Char) :
    dropLeadingSpaces (dropLeadingSpaces l) = dropLeadingSpaces l := by
  induction l with
  | nil => rfl
  | cons c cs ih =>
    by_cases hc : c.isWhitespace
    · simp [dropLeadingSpaces, hc, ih]
    · simp [dropLeadingSpaces, hc]

/-- dropLeadingSpaces leaves no leading whitespace. -/
theorem headNotWs_dropLeadingSpaces (l : List Char) :
    headNotWs (dropLeadingSpaces l) := by
  induction l with
  | nil => trivial
  | cons c cs ih =>
    by_cases hc : c.isWhitespace
    · simpa [dropLeadingSpaces, hc] using ih
    · simp [dropLeadingSpaces, hc, headNotWs]

/-- dropLeadingSpaces fixes a list with no leading whitespace. -/
theorem dropLeadingSpaces_eq_self (l : List Char) (h : headNotWs l) :
    dropLeadingSpaces l = l := by
  cases l with
  | nil => rfl
  | cons c cs => simp [dropLeadingSpaces, headNotWs] at h ⊢; simp [h]

/-- dropLeadingSpaces returns a suffix. -/
theorem dropLeadingSpaces_suffix (l : List Char) :
    ∃ t, l = t ++ dropLeadingSpaces l := by
  induction l with
  | nil => exact ⟨[], rfl⟩
  | cons c cs ih =>
    by_cases hc : c.isWhitespace
    · obtain ⟨t, ht⟩ := ih
      exact ⟨c :: t, by simp [dropLeadingSpaces, hc, ← ht]⟩
    · exact ⟨[], by simp [dropLeadingSpaces, hc]⟩

/-- A prefix of a list with no leading whitespace has none either. -/
theorem headNotWs_prefix (b t : List Char) (h : headNotWs (b ++ t)) :
    headNotWs b := by
  cases b with
  | nil => trivial
  | cons c cs => exact h

/-- pyStrip is idempotent: stripping a stripped string changes nothing. -/
theorem pyStrip_idem (s : String) : pyStrip (pyStrip s) = pyStrip s := by
  unfold pyStrip
  apply congrArg String.mk
  set A := dropLeadingSpaces s.data with hA
  set B := (dropLeadingSpaces A.reverse).reverse with hB
  have hAnws : headNotWs A := headNotWs_dropLeadingSpaces s.data
  have hBpre : ∃ t, A = B ++ t := by
    obtain ⟨t, ht⟩ := dropLeadingSpaces_suffix A.reverse
    refine ⟨t.reverse, ?_⟩
    have := congrArg List.reverse ht
    simpa [hB] using this
  have hBnws : headNotWs B := by
    obtain ⟨t, ht⟩ := hBpre
    exact headNotWs_prefix B t (ht ▸ hAnws)
  have h1 : dropLeadingSpaces B = B := dropLeadingSpaces_eq_self B hBnws
  have h2 : dropLeadingSpaces B.reverse = B.reverse := by
    rw [hB, List.reverse_reverse]
    exact dropLeadingSpaces_idem A.reverse
  simp only [String.data]
  rw [h1, h2, List.reverse_reverse]

/-- Looking a staff user up by an already-stripped email finds the same row
(the lookup strips and lowercases again, and pyStrip is idempotent). -/
theorem get_staff_user_by_email_pyStrip (users : List StaffUserRow)
    (email : String) :
    get_staff_user_by_email users (pyStrip email) =
      get_staff_user_by_email users email := by
  simp [get_staff_user_by_email, pyStrip_idem]

/-- C9. Inactive-account indistinguishability: a login against an inactive
account (even with the correct password) and a login against an active
account with a wrong password both make verify_staff_password return none
and both make the login endpoint answer with the identical failure response
(the one flash message, the form re-shown with the submitted email), so the
two causes are observationally identical whenever the submitted emails are.
-/
theorem inactive_account_indistinguishable
    (check_password_hash : String → String → Bool)
    (users : List StaffUserRow) (emailI pwI emailA pwA : String)
    (rowI rowA : StaffUserRow)
    (hI : get_staff_user_by_email users emailI = some rowI)
    (hInactive : rowI.isActive = false)
    (hA : get_staff_user_by_email users emailA = some rowA)
    (hActive : rowA.isActive = true)
    (hWrong : check_password_hash rowA.password_hash pwA = false) :
    verify_staff_password check_password_hash users emailI pwI = none ∧
    verify_staff_password check_password_hash users emailA pwA = none ∧
    login_post check_password_hash users emailI pwI =
      LoginResponse.render_login_error LOGIN_ERROR_MESSAGE
        (pyStrip emailI) ∧
    login_post check_password_hash users emailA pwA =
      LoginResponse.render_login_error LOGIN_ERROR_MESSAGE
        (pyStrip emailA) ∧
    (pyStrip emailI = pyStrip emailA →
      login_post check_password_hash users emailI pwI =
        login_post check_password_hash users emailA pwA) := by
  have hvI : verify_staff_password check_password_hash users emailI pwI =
      none := by
    simp [verify_staff_password, hI, hInactive]
  have hvA : verify_staff_password check_password_hash users emailA pwA =
      none := by
    simp [verify_staff_password, hA, hActive, hWrong]
  have hvI2 : verify_staff_password check_password_hash users
      (pyStrip emailI) pwI = none := by
    simp [verify_staff_password, get_staff_user_by_email_pyStrip, hI,
      hInactive]
  have hvA2 : verify_staff_password check_password_hash users
      (pyStrip emailA) pwA = none := by
    simp [verify_staff_password, get_staff_user_by_email_pyStrip, hA,
      hActive, hWrong]
  refine ⟨hvI, hvA, ?_, ?_, ?_⟩
  · simp [login_post, hvI2]
  · simp [login_post, hvA2]
  · intro he
    rw [he] at hvI2
    simp [login_post, hvI2, hvA2, he]

/-- Witness for inactive_account_indistinguishable: a two-row staff table
with one inactive account (correct password) and one active account (wrong
password). -/
theorem inactive_account_indistinguishable_witness :
    verify_staff_password (fun h p => h == "hash-" ++ p)
        [⟨1, "inactive@example.com", "I", "hash-pw1", false⟩,
         ⟨2, "active@example.com", "A", "hash-pw2", true⟩]
        "inactive@example.com" "pw1" = none ∧
    verify_staff_password (fun h p => h == "hash-" ++ p)
        [⟨1, "inactive@example.com", "I", "hash-pw1", false⟩,
         ⟨2, "active@example.com", "A", "hash-pw2", true⟩]
        "active@example.com" "wrong" = none ∧
    login_post (fun h p => h == "hash-" ++ p)
        [⟨1, "inactive@example.com", "I", "hash-pw1", false⟩,
         ⟨2, "active@example.com", "A", "hash-pw2", true⟩]
        "inactive@example.com" "pw1" =
      LoginResponse.render_login_error LOGIN_ERROR_MESSAGE
        (pyStrip "inactive@example.com") ∧
    login_post (fun h p => h == "hash-" ++ p)
        [⟨1, "inactive@example.com", "I", "hash-pw1", false⟩,
         ⟨2, "active@example.com", "A", "hash-pw2", true⟩]
        "active@example.com" "wrong" =
      LoginResponse.render_login_error LOGIN_ERROR_MESSAGE
        (pyStrip "active@example.com") ∧
    (pyStrip "inactive@example.com" = pyStrip "active@example.com" →
      login_post (fun h p => h == "hash-" ++ p)
          [⟨1, "inactive@example.com", "I", "hash-pw1", false⟩,
           ⟨2, "active@example.com", "A", "hash-pw2", true⟩]
          "inactive@example.com" "pw1" =
        login_post (fun h p => h == "hash-" ++ p)
          [⟨1, "inactive@example.com", "I", "hash-pw1", false⟩,
           ⟨2, "active@example.com", "A", "hash-pw2", true⟩]
          "active@example.com" "wrong") :=
  inactive_account_indistinguishable (fun h p => h == "hash-" ++ p)
    [⟨1, "inactive@example.com", "I", "hash-pw1", false⟩,
     ⟨2, "active@example.com", "A", "hash-pw2", true⟩]
    "inactive@example.com" "pw1" "active@example.com" "wrong"
    ⟨1, "inactive@example.com", "I", "hash-pw1", false⟩
    ⟨2, "active@example.com", "A", "hash-pw2", true⟩
    (by decide) (by decide) (by decide) (by decide) (by decide)

end Appointment
